import Mathlib

/-!
Shallow embedding of the dbus-python "egg" core: the bus-daemon facade
(`src/dbus/bus.py`, class `_BusDaemonMixin`) and the GObject identity
composition layer (`src/dbus/gobject_service.py`).

The facade wrappers are translated directly from `bus.py`.  The bus-name
validator lives in the C extension `_dbus_bindings` and the proxy-call
machinery in `dbus.proxies`, neither of which is under `src/`; those
parts are modelled from the specification (each such definition says so
in its doc comment).  A facade operation is modelled as a function from
a daemon oracle (mapping each outbound method call to the daemon's
reply or error) to a pair of the list of messages it queued and its
result to the caller.
-/

namespace DBusEgg

/-- D-Bus values as seen by the facade: strings, 32-bit unsigned
integers and booleans — the value kinds `bus.py` sends and receives
(`str` arguments, `UInt32` flags and reply codes, boolean replies).
The one tuple return, in `start_service_by_name`, is modelled as a
Lean pair. -/
inductive Value where
  | str (s : String)
  | u32 (n : Nat)
  | boolV (b : Bool)
deriving Repr, DecidableEq

/-- An outbound proxy method call: destination bus name, object path,
interface, member and arguments.  This is what
`self.get_object(name, path).Member(args, dbus_interface=iface)`
queues on the wire in `bus.py`. -/
structure MethodCall where
  dest : String
  path : String
  iface : String
  member : String
  args : List Value
deriving Repr, DecidableEq

/-- A daemon-side error reply (remote error name plus message), the
payload of a `DBusException` raised by a blocking proxy call. -/
structure DBusError where
  errname : String
  errmessage : String
deriving Repr, DecidableEq

/-- Errors a facade operation can surface to its caller: a local
validation failure (never leaves the process) or a daemon-side error. -/
inductive ValidationError where
  | emptyName (s : String)
  | uniqueFormForbidden (s : String)
  | malformed (s : String)
deriving Repr, DecidableEq

inductive FacadeError where
  | validation (e : ValidationError)
  | daemon (e : DBusError)
deriving Repr, DecidableEq

/-- Modelled from the spec: the fixed daemon addressing constants
`BUS_DAEMON_NAME`, `BUS_DAEMON_PATH`, `BUS_DAEMON_IFACE` are imported
by `bus.py` from `dbus.proxies`, which is not under `src/`; their
values are fixed by spec §6 ("name `org.freedesktop.DBus`, path
`/org/freedesktop/DBus`, interface `org.freedesktop.DBus`"). -/
def BUS_DAEMON_NAME : String := "org.freedesktop.DBus"

def BUS_DAEMON_PATH : String := "/org/freedesktop/DBus"

def BUS_DAEMON_IFACE : String := "org.freedesktop.DBus"

/-- Modelled from the spec: flag and reply-code constants of §6,
consumed verbatim from `_dbus_bindings` (not under `src/`), with the
standard D-Bus wire values. -/
def DBUS_NAME_FLAG_DO_NOT_QUEUE : Nat := 4

def DBUS_REQUEST_NAME_REPLY_PRIMARY_OWNER : Nat := 1

def DBUS_REQUEST_NAME_REPLY_IN_QUEUE : Nat := 2

def DBUS_REQUEST_NAME_REPLY_EXISTS : Nat := 3

def DBUS_REQUEST_NAME_REPLY_ALREADY_OWNER : Nat := 4

def START_REPLY_SUCCESS : Nat := 1

def START_REPLY_ALREADY_RUNNING : Nat := 2

/-- Characters permitted inside a bus-name segment. -/
def nameChar (c : Char) : Bool :=
  c.isAlpha || c.isDigit || c == '_' || c == '-'

/-- Split a character list at the dots, keeping empty segments. -/
def splitOnDot : List Char → List (List Char)
  | [] => [[]]
  | c :: rest =>
    let r := splitOnDot rest
    if c == '.' then [] :: r
    else
      match r with
      | [] => [[c]]
      | s :: ss => (c :: s) :: ss

/-- A segment of a well-known bus name: nonempty, name characters
only, and never starting with a digit. -/
def wellKnownSegOK : List Char → Bool
  | [] => false
  | c :: rest => (c.isAlpha || c == '_' || c == '-') && rest.all nameChar

/-- A segment of a unique bus name: nonempty, name characters only
(digits may lead). -/
def uniqueSegOK (s : List Char) : Bool :=
  !s.isEmpty && s.all nameChar

/-- A name is in unique form when it starts with a colon. -/
def isUniqueForm (name : String) : Bool :=
  match name.data with
  | [] => false
  | c :: _ => c == ':'

/-- Modelled from the spec: `validate_bus_name` is provided by the C
extension `_dbus_bindings`, which is not under `src/`.  Spec §3: a
bus name is either unique (`:`-prefixed, daemon-assigned) or
well-known (dot-separated reverse-DNS-style segments, no segment
starting with a digit); the validator rejects malformed names before
any call leaves the process.  Spec §4.1: bus-name validation takes a
flag allowing or forbidding the unique-name form. -/
def validate_bus_name (name : String) (allow_unique : Bool) :
    Except ValidationError Unit :=
  match name.data with
  | [] => .error (.emptyName name)
  | c :: rest =>
    if c == ':' then
      if allow_unique then
        let segs := splitOnDot rest
        if decide (2 ≤ segs.length) && segs.all uniqueSegOK then .ok ()
        else .error (.malformed name)
      else .error (.uniqueFormForbidden name)
    else
      let segs := splitOnDot (c :: rest)
      if decide (2 ≤ segs.length) && segs.all wellKnownSegOK then .ok ()
      else .error (.malformed name)

/-- The daemon oracle: for each outbound method call, the reply the
daemon would eventually send (a value, or an error reply). -/
def Daemon : Type := MethodCall → Except DBusError Value

/-- `_noop` from `bus.py`: a universal no-op function — accepts
anything and returns `None`. -/
def _noop {α : Type} (_args : α) : Option Value :=
  none

/-- Build the fixed-addressed daemon call
`get_object(BUS_DAEMON_NAME, BUS_DAEMON_PATH).Member(args,
dbus_interface=BUS_DAEMON_IFACE)`. -/
def busDaemonCall (member : String) (args : List Value) : MethodCall :=
  { dest := BUS_DAEMON_NAME, path := BUS_DAEMON_PATH,
    iface := BUS_DAEMON_IFACE, member := member, args := args }

/-- Modelled from the spec: blocking proxy method call (the proxy layer
`dbus.proxies` is not under `src/`).  Spec §2/§4.2: the call queues one
outbound message and suspends until the reply arrives; a daemon error
reply surfaces as an exception, a success reply as the return value. -/
def proxyCall (daemon : Daemon) (c : MethodCall) :
    List MethodCall × Except FacadeError Value :=
  ([c], match daemon c with
        | .ok v => .ok v
        | .error e => .error (.daemon e))

/-- Modelled from the spec: non-blocking proxy method call with
explicit `reply_handler`/`error_handler` (proxy layer not under
`src/`).  Spec §4.2: the call returns to the caller as soon as the
outbound message is queued; when the reply eventually arrives it is
fed to the success or error handler.  The third component records what
the installed handler produced from the eventual reply. -/
def proxyCallNonBlocking (daemon : Daemon) (c : MethodCall)
    (reply_handler : Value → Option Value)
    (error_handler : DBusError → Option Value) :
    List MethodCall × Except FacadeError Unit × Option Value :=
  ([c], .ok (), match daemon c with
                | .ok v => reply_handler v
                | .error e => error_handler e)

/-- `_BusDaemonMixin.get_unix_user`: validates the bus name (either
form), then calls `GetConnectionUnixUser`. -/
def get_unix_user (daemon : Daemon) (bus_name : String) :
    List MethodCall × Except FacadeError Value :=
  match validate_bus_name bus_name true with
  | .error e => ([], .error (.validation e))
  | .ok _ => proxyCall daemon (busDaemonCall "GetConnectionUnixUser" [.str bus_name])

/-- `_BusDaemonMixin.start_service_by_name`: validates the bus name
(either form), calls `StartServiceByName` with `UInt32(flags)`, and
returns `(True, ret)`. -/
def start_service_by_name (daemon : Daemon) (bus_name : String) (flags : Nat) :
    List MethodCall × Except FacadeError (Bool × Value) :=
  match validate_bus_name bus_name true with
  | .error e => ([], .error (.validation e))
  | .ok _ =>
    let (tr, r) := proxyCall daemon
      (busDaemonCall "StartServiceByName" [.str bus_name, .u32 (flags % 2 ^ 32)])
    (tr, r.map (fun v => (true, v)))

/-- `_BusDaemonMixin.request_name`: validates the name with
`allow_unique=False`, then calls `RequestName` with `UInt32(flags)`
and returns the reply code. -/
def request_name (daemon : Daemon) (name : String) (flags : Nat) :
    List MethodCall × Except FacadeError Value :=
  match validate_bus_name name false with
  | .error e => ([], .error (.validation e))
  | .ok _ => proxyCall daemon
      (busDaemonCall "RequestName" [.str name, .u32 (flags % 2 ^ 32)])

/-- `_BusDaemonMixin.release_name`: validates the name with
`allow_unique=False`, then calls `ReleaseName`. -/
def release_name (daemon : Daemon) (name : String) :
    List MethodCall × Except FacadeError Value :=
  match validate_bus_name name false with
  | .error e => ([], .error (.validation e))
  | .ok _ => proxyCall daemon (busDaemonCall "ReleaseName" [.str name])

/-- Python truthiness of a D-Bus value, for the `bool(...)` coercion
in `name_has_owner`. -/
def truthy : Value → Bool
  | .str s => !s.isEmpty
  | .u32 n => n != 0
  | .boolV b => b

/-- `_BusDaemonMixin.name_has_owner`: no validation, calls
`NameHasOwner` and coerces the reply with `bool(...)`. -/
def name_has_owner (daemon : Daemon) (bus_name : String) :
    List MethodCall × Except FacadeError Bool :=
  let (tr, r) := proxyCall daemon (busDaemonCall "NameHasOwner" [.str bus_name])
  (tr, r.map truthy)

/-- `_BusDaemonMixin.add_match_string`: blocking `AddMatch`; the reply
value is discarded (the Python method body is a bare expression
statement, so the method returns `None`). -/
def add_match_string (daemon : Daemon) (rule : String) :
    List MethodCall × Except FacadeError Unit :=
  let (tr, r) := proxyCall daemon (busDaemonCall "AddMatch" [.str rule])
  (tr, r.map (fun _ => ()))

/-- `_BusDaemonMixin.add_match_string_non_blocking`: `AddMatch` with
`reply_handler=_noop, error_handler=_noop`. -/
def add_match_string_non_blocking (daemon : Daemon) (rule : String) :
    List MethodCall × Except FacadeError Unit × Option Value :=
  proxyCallNonBlocking daemon (busDaemonCall "AddMatch" [.str rule]) _noop _noop

/-- `_BusDaemonMixin.remove_match_string`: blocking `RemoveMatch`; the
reply value is discarded. -/
def remove_match_string (daemon : Daemon) (rule : String) :
    List MethodCall × Except FacadeError Unit :=
  let (tr, r) := proxyCall daemon (busDaemonCall "RemoveMatch" [.str rule])
  (tr, r.map (fun _ => ()))

/-- `_BusDaemonMixin.remove_match_string_non_blocking`: `RemoveMatch`
with `reply_handler=_noop, error_handler=_noop`. -/
def remove_match_string_non_blocking (daemon : Daemon) (rule : String) :
    List MethodCall × Except FacadeError Unit × Option Value :=
  proxyCallNonBlocking daemon (busDaemonCall "RemoveMatch" [.str rule]) _noop _noop

/-- Modelled from the spec: the metaclasses involved in
`gobject_service.py`.  `dbus.service.InterfaceType` and
`gobject.GObjectMeta` come from modules that are not under `src/`;
spec §4.4 describes them as the hooks of two independently-designed
object construction protocols.  `ExportedGObjectType` is the combined
metaclass declared in `gobject_service.py`, inheriting from both;
`typeMeta` is Python's base metaclass `type`. -/
inductive PyMeta where
  | typeMeta
  | InterfaceType
  | GObjectMeta
  | ExportedGObjectType
deriving Repr, DecidableEq

/-- The (reflexive, transitive) superclass list of each metaclass,
per the class declarations: `InterfaceType` and `GObjectMeta` each
derive from `type`; `ExportedGObjectType` derives from both. -/
def PyMeta.ancestors : PyMeta → List PyMeta
  | .typeMeta => [.typeMeta]
  | .InterfaceType => [.InterfaceType, .typeMeta]
  | .GObjectMeta => [.GObjectMeta, .typeMeta]
  | .ExportedGObjectType => [.ExportedGObjectType, .InterfaceType, .GObjectMeta, .typeMeta]

/-- `a` is a (non-strict) subclass of `b`. -/
def metaSubclass (a b : PyMeta) : Bool :=
  a.ancestors.contains b

/-- A Python class as the composition layer sees it: its name, the
metaclass resolved at class-definition time, and its linearized
ancestry (method resolution order), also fixed at definition time. -/
structure PyClass where
  cname : String
  pymeta : PyMeta
  mro : List String
deriving Repr, DecidableEq

/-- Modelled from the spec: Python's metaclass-winner computation at
class-definition time.  Starting from the candidate metaclass, each
base's metaclass must be comparable with the current winner; two
incomparable metaclasses make the class statement itself fail
("metaclass conflict"), which is the fail-fast-at-definition behavior
spec §4.4 requires. -/
def resolveWinner : PyMeta → List PyMeta → Except String PyMeta
  | w, [] => .ok w
  | w, m :: rest =>
    if metaSubclass w m then resolveWinner w rest
    else if metaSubclass m w then resolveWinner m rest
    else .error "metaclass conflict"

/-- Modelled from the spec: executing a Python class statement.  The
candidate metaclass is the declared `__metaclass__` when present,
otherwise the first base's metaclass; the winner check runs over all
bases' metaclasses.  On success the class exists with its ancestry
recorded; on conflict no class is produced — the failure happens at
class-definition time, before any instantiation. -/
def createClass (cname : String) (declaredMeta : Option PyMeta)
    (bases : List PyClass) : Except String PyClass :=
  let candidate :=
    match declaredMeta with
    | some m => m
    | none =>
      match bases with
      | [] => PyMeta.typeMeta
      | b :: _ => b.pymeta
  match resolveWinner candidate (bases.map PyClass.pymeta) with
  | .error e => .error e
  | .ok w => .ok { cname := cname, pymeta := w,
                   mro := cname :: (bases.map PyClass.mro).flatten }

/-- An instance of a defined class. -/
structure PyInstance where
  cls : PyClass
deriving Repr, DecidableEq

/-- Instantiation of a successfully defined class is total: any
failure of the composition happens earlier, in `createClass`. -/
def instantiate (c : PyClass) : PyInstance :=
  { cls := c }

/-- Python `isinstance`: the class appears in the instance's ancestry. -/
def isinstance (i : PyInstance) (c : PyClass) : Bool :=
  i.cls.mro.contains c.cname

/-- The root class `object`. -/
def pyObject : PyClass :=
  { cname := "object", pymeta := .typeMeta, mro := ["object"] }

/-- `dbus.service.Object`, the exportable-service-object protocol base
(its metaclass is `dbus.service.InterfaceType`). -/
def dbusServiceObject : PyClass :=
  { cname := "dbus.service.Object", pymeta := .InterfaceType,
    mro := ["dbus.service.Object", "object"] }

/-- `gobject.GObject`, the object-model protocol base (its metaclass
is `gobject.GObjectMeta`). -/
def gobjectGObject : PyClass :=
  { cname := "gobject.GObject", pymeta := .GObjectMeta,
    mro := ["gobject.GObject", "object"] }

/-- `gobject_service.py`: `class ExportedGObject(dbus.service.Object,
gobject.GObject)` with `__metaclass__ = ExportedGObjectType`. -/
def ExportedGObject : Except String PyClass :=
  createClass "ExportedGObject" (some .ExportedGObjectType)
    [dbusServiceObject, gobjectGObject]

/-- The naive variant the docstring of `gobject_service.py` warns
about: the same bases with no combined metaclass declared. -/
def NaiveExportedGObject : Except String PyClass :=
  createClass "ExportedGObject" none [dbusServiceObject, gobjectGObject]

/-- A daemon oracle that answers every call with boolean `True`; used
as a concrete environment in closed statements. -/
def daemonTrue : Daemon :=
  fun _ => .ok (.boolV true)

/-- A daemon oracle that answers every call with the `EXISTS` request
reply code. -/
def daemonExists : Daemon :=
  fun _ => .ok (.u32 DBUS_REQUEST_NAME_REPLY_EXISTS)

/-- A daemon oracle that answers every call with an error reply. -/
def daemonFailing : Daemon :=
  fun _ => .error { errname := "org.freedesktop.DBus.Error.Failed",
                    errmessage := "no" }

/-- A daemon oracle that answers every call with the `SUCCESS` start
reply code. -/
def daemonStartOk : Daemon :=
  fun _ => .ok (.u32 START_REPLY_SUCCESS)

/-- A method call carries the fixed daemon addressing of spec §6. -/
def addressedToDaemon (c : MethodCall) : Prop :=
  c.dest = "org.freedesktop.DBus" ∧ c.path = "/org/freedesktop/DBus" ∧
    c.iface = "org.freedesktop.DBus"

theorem validate_rejects_unique (name : String) (h : isUniqueForm name = true) :
    validate_bus_name name false = .error (.uniqueFormForbidden name) := by
  unfold isUniqueForm at h
  unfold validate_bus_name
  cases hd : name.data with
  | nil => rw [hd] at h; cases h
  | cons c rest =>
    rw [hd] at h
    have hc : (c == ':') = true := h
    simp only [hd, hc]
    rfl

theorem addressed_of_mem_singleton {c : MethodCall} {m : String}
    {a : List Value} (h : c ∈ [busDaemonCall m a]) : addressedToDaemon c := by
  rcases List.mem_singleton.mp h with rfl
  exact ⟨rfl, rfl, rfl⟩

/-- C1: for every unique-form name (one starting with a colon) and
every flags value, `request_name` and `release_name` fail with a
validation error and queue no `RequestName`/`ReleaseName` message:
the well-known-only validation happens before any daemon call. -/
theorem C1_request_release_reject_unique_form (name : String) (flags : Nat)
    (daemon : Daemon) (h : isUniqueForm name = true) :
    (request_name daemon name flags).1 = [] ∧
    (request_name daemon name flags).2 =
      .error (.validation (.uniqueFormForbidden name)) ∧
    (release_name daemon name).1 = [] ∧
    (release_name daemon name).2 =
      .error (.validation (.uniqueFormForbidden name)) := by
  have hv := validate_rejects_unique name h
  unfold request_name release_name
  rw [hv]
  exact ⟨rfl, rfl, rfl, rfl⟩

/-- C1 witness: the unique-form name `:1.42` is rejected by
`request_name` with no message sent, at any flags value (here 0). -/
theorem C1_request_release_reject_unique_form_witness :
    isUniqueForm ":1.42" = true ∧
    (request_name daemonTrue ":1.42" 0).1 = [] ∧
    (release_name daemonTrue ":1.42").2 =
      .error (.validation (.uniqueFormForbidden ":1.42")) :=
  ⟨rfl, (C1_request_release_reject_unique_form ":1.42" 0 daemonTrue rfl).1,
    (C1_request_release_reject_unique_form ":1.42" 0 daemonTrue rfl).2.2.2⟩

/-- C2: the non-blocking match operations queue exactly the
`AddMatch`/`RemoveMatch` message and return `.ok ()` to the caller for
every daemon oracle — the caller-visible result is fixed at queue
time, independent of the eventual reply — and the installed `_noop`
handler turns any reply, success or error, into `none` (discarded). -/
theorem C2_non_blocking_match_ops_never_surface_errors (rule : String)
    (daemon : Daemon) :
    add_match_string_non_blocking daemon rule =
      ([busDaemonCall "AddMatch" [.str rule]], .ok (), none) ∧
    remove_match_string_non_blocking daemon rule =
      ([busDaemonCall "RemoveMatch" [.str rule]], .ok (), none) := by
  constructor
  · cases h : daemon (busDaemonCall "AddMatch" [.str rule]) <;>
      simp [add_match_string_non_blocking, proxyCallNonBlocking, _noop, h]
  · cases h : daemon (busDaemonCall "RemoveMatch" [.str rule]) <;>
      simp [remove_match_string_non_blocking, proxyCallNonBlocking, _noop, h]

/-- C3: for a name passing well-known-only validation, `request_name`
returns whatever reply code the daemon sends as its ordinary return
value — `IN_QUEUE` and `EXISTS` included — and surfaces an error only
when the daemon call itself fails. -/
theorem C3_request_name_returns_reply_codes (name : String) (flags : Nat)
    (daemon : Daemon) (hv : validate_bus_name name false = .ok ()) :
    (∀ code : Value,
        daemon (busDaemonCall "RequestName" [.str name, .u32 (flags % 2 ^ 32)]) =
          .ok code →
        (request_name daemon name flags).2 = .ok code) ∧
    (∀ e : DBusError,
        daemon (busDaemonCall "RequestName" [.str name, .u32 (flags % 2 ^ 32)]) =
          .error e →
        (request_name daemon name flags).2 = .error (.daemon e)) := by
  unfold request_name proxyCall
  rw [hv]
  exact ⟨fun code hc => by rw [hc], fun e he => by rw [he]⟩

/-- C3 witness: a `DO_NOT_QUEUE` request answered with `EXISTS`
returns the code `EXISTS` (3) as an ordinary value. -/
theorem C3_request_name_returns_reply_codes_witness :
    validate_bus_name "com.example.Foo" false = .ok () ∧
    (request_name daemonExists "com.example.Foo" DBUS_NAME_FLAG_DO_NOT_QUEUE).2 =
      .ok (.u32 DBUS_REQUEST_NAME_REPLY_EXISTS) :=
  ⟨rfl, (C3_request_name_returns_reply_codes "com.example.Foo"
      DBUS_NAME_FLAG_DO_NOT_QUEUE daemonExists rfl).1
      (.u32 DBUS_REQUEST_NAME_REPLY_EXISTS) rfl⟩

/-- C4 counterexample: `name_has_owner` never invokes the name
validator.  The empty string fails bus-name validation in both modes,
yet `name_has_owner` still queues the `NameHasOwner` message with it
and returns the daemon's answer normally — the value crosses the
protocol boundary unvalidated. -/
theorem C4_name_has_owner_skips_validation :
    validate_bus_name "" true = .error (.emptyName "") ∧
    validate_bus_name "" false = .error (.emptyName "") ∧
    (name_has_owner daemonTrue "").1 = [busDaemonCall "NameHasOwner" [.str ""]] ∧
    (name_has_owner daemonTrue "").2 = .ok true :=
  ⟨rfl, rfl, rfl, rfl⟩

/-- C4 (amended): of the facade operations taking a caller-supplied
name, `get_unix_user`, `start_service_by_name`, `request_name` and
`release_name` invoke the validator before the proxy call — a name
the validator rejects produces a validation error with no message
queued — but `name_has_owner` does not validate at all. -/
theorem C4_validation_before_boundary (name : String) (flags : Nat)
    (daemon : Daemon) :
    (∀ e : ValidationError, validate_bus_name name true = .error e →
        get_unix_user daemon name = ([], .error (.validation e)) ∧
        start_service_by_name daemon name flags = ([], .error (.validation e))) ∧
    (∀ e : ValidationError, validate_bus_name name false = .error e →
        request_name daemon name flags = ([], .error (.validation e)) ∧
        release_name daemon name = ([], .error (.validation e))) ∧
    (name_has_owner daemon name).1 = [busDaemonCall "NameHasOwner" [.str name]] := by
  refine ⟨fun e hv => ?_, fun e hv => ?_, rfl⟩
  · unfold get_unix_user start_service_by_name
    rw [hv]
    exact ⟨rfl, rfl⟩
  · unfold request_name release_name
    rw [hv]
    exact ⟨rfl, rfl⟩

/-- C4 witness: the malformed name `nodots` is stopped by
`get_unix_user` before any message is queued. -/
theorem C4_validation_before_boundary_witness :
    validate_bus_name "nodots" true = .error (.malformed "nodots") ∧
    get_unix_user daemonTrue "nodots" =
      ([], .error (.validation (.malformed "nodots"))) :=
  ⟨rfl, ((C4_validation_before_boundary "nodots" 0 daemonTrue).1
      (.malformed "nodots") rfl).1⟩

/-- C5: for a bus name the validator accepts, `start_service_by_name`
returns `(True, code)` where `code` is exactly the daemon's reply,
and a daemon-reported activation failure surfaces as an error instead
of a return value. -/
theorem C5_start_service_by_name_result (bus_name : String) (flags : Nat)
    (daemon : Daemon) (hv : validate_bus_name bus_name true = .ok ()) :
    (∀ v : Value,
        daemon (busDaemonCall "StartServiceByName"
          [.str bus_name, .u32 (flags % 2 ^ 32)]) = .ok v →
        (start_service_by_name daemon bus_name flags).2 = .ok (true, v)) ∧
    (∀ e : DBusError,
        daemon (busDaemonCall "StartServiceByName"
          [.str bus_name, .u32 (flags % 2 ^ 32)]) = .error e →
        (start_service_by_name daemon bus_name flags).2 = .error (.daemon e)) := by
  unfold start_service_by_name proxyCall
  rw [hv]
  exact ⟨fun v hval => by rw [hval]; rfl, fun e he => by rw [he]; rfl⟩

/-- C5 witness: activating `com.example.Foo` against a daemon that
replies `START_REPLY_SUCCESS` returns `(True, SUCCESS)`. -/
theorem C5_start_service_by_name_result_witness :
    validate_bus_name "com.example.Foo" true = .ok () ∧
    (start_service_by_name daemonStartOk "com.example.Foo" 0).2 =
      .ok (true, .u32 START_REPLY_SUCCESS) :=
  ⟨rfl, (C5_start_service_by_name_result "com.example.Foo" 0 daemonStartOk rfl).1
      (.u32 START_REPLY_SUCCESS) rfl⟩

/-- C6: `name_has_owner` queues the `NameHasOwner` message for every
string — no unique/well-known restriction — and returns the daemon's
reply coerced through Python truthiness to exactly `True` or `False`;
errors are only daemon errors. -/
theorem C6_name_has_owner_coerces_bool (bus_name : String) (daemon : Daemon) :
    (name_has_owner daemon bus_name).1 =
      [busDaemonCall "NameHasOwner" [.str bus_name]] ∧
    (∀ v : Value,
        daemon (busDaemonCall "NameHasOwner" [.str bus_name]) = .ok v →
        (name_has_owner daemon bus_name).2 = .ok (truthy v)) ∧
    (∀ e : DBusError,
        daemon (busDaemonCall "NameHasOwner" [.str bus_name]) = .error e →
        (name_has_owner daemon bus_name).2 = .error (.daemon e)) := by
  unfold name_has_owner proxyCall
  exact ⟨rfl, fun v hval => by rw [hval]; rfl, fun e he => by rw [he]; rfl⟩

/-- C6 witness: a unique-form name is accepted, and a boolean `True`
reply comes back as `True`. -/
theorem C6_name_has_owner_coerces_bool_witness :
    (name_has_owner daemonTrue ":1.42").2 = .ok true :=
  (C6_name_has_owner_coerces_bool ":1.42" daemonTrue).2.1 (.boolV true) rfl

/-- C7: every message any facade operation queues is addressed to the
fixed daemon constants — destination `org.freedesktop.DBus`, path
`/org/freedesktop/DBus`, interface `org.freedesktop.DBus`. -/
theorem C7_fixed_daemon_addressing (daemon : Daemon) (s : String) (flags : Nat)
    (c : MethodCall)
    (hc : c ∈ (get_unix_user daemon s).1 ∨
          c ∈ (start_service_by_name daemon s flags).1 ∨
          c ∈ (request_name daemon s flags).1 ∨
          c ∈ (release_name daemon s).1 ∨
          c ∈ (name_has_owner daemon s).1 ∨
          c ∈ (add_match_string daemon s).1 ∨
          c ∈ (add_match_string_non_blocking daemon s).1 ∨
          c ∈ (remove_match_string daemon s).1 ∨
          c ∈ (remove_match_string_non_blocking daemon s).1) :
    addressedToDaemon c := by
  rcases hc with hc | hc | hc | hc | hc | hc | hc | hc | hc
  · unfold get_unix_user at hc
    cases hv : validate_bus_name s true <;> rw [hv] at hc
    · exact absurd hc (List.not_mem_nil c)
    · exact addressed_of_mem_singleton hc
  · unfold start_service_by_name at hc
    cases hv : validate_bus_name s true <;> rw [hv] at hc
    · exact absurd hc (List.not_mem_nil c)
    · exact addressed_of_mem_singleton hc
  · unfold request_name at hc
    cases hv : validate_bus_name s false <;> rw [hv] at hc
    · exact absurd hc (List.not_mem_nil c)
    · exact addressed_of_mem_singleton hc
  · unfold release_name at hc
    cases hv : validate_bus_name s false <;> rw [hv] at hc
    · exact absurd hc (List.not_mem_nil c)
    · exact addressed_of_mem_singleton hc
  · exact addressed_of_mem_singleton hc
  · exact addressed_of_mem_singleton hc
  · exact addressed_of_mem_singleton hc
  · exact addressed_of_mem_singleton hc
  · exact addressed_of_mem_singleton hc

/-- C7 witness: the message queued by `name_has_owner` for a concrete
name carries the fixed daemon addressing. -/
theorem C7_fixed_daemon_addressing_witness :
    addressedToDaemon (busDaemonCall "NameHasOwner" [.str "org.example.X"]) :=
  C7_fixed_daemon_addressing daemonTrue "org.example.X" 0
    (busDaemonCall "NameHasOwner" [.str "org.example.X"])
    (Or.inr (Or.inr (Or.inr (Or.inr (Or.inl (List.mem_singleton.mpr rfl))))))

/-- C8: the identity composition layer works — defining
`ExportedGObject` with the combined metaclass `ExportedGObjectType`
succeeds, and an instance of it is simultaneously an instance of
`dbus.service.Object` (the exportable-service-object protocol) and of
`gobject.GObject` (the object-model protocol); whereas combining the
two bases without reconciling their metaclasses fails already inside
`createClass`, i.e. at class-definition time, before `instantiate`
could ever run. -/
theorem C8_identity_composition :
    (∃ c : PyClass, ExportedGObject = .ok c ∧
        isinstance (instantiate c) dbusServiceObject = true ∧
        isinstance (instantiate c) gobjectGObject = true) ∧
    NaiveExportedGObject = .error "metaclass conflict" :=
  ⟨⟨⟨"ExportedGObject", .ExportedGObjectType,
      ["ExportedGObject", "dbus.service.Object", "object",
       "gobject.GObject", "object"]⟩, rfl, rfl, rfl⟩, rfl⟩

/-- C9: the blocking match operations discard the daemon's reply
value — whatever value the daemon returns, the caller gets `()` (the
Python method returns `None`), so success is observable only as the
absence of an error — while daemon errors do propagate. -/
theorem C9_blocking_match_ops_discard_reply (rule : String) (daemon : Daemon) :
    (∀ v : Value, daemon (busDaemonCall "AddMatch" [.str rule]) = .ok v →
        (add_match_string daemon rule).2 = .ok ()) ∧
    (∀ e : DBusError, daemon (busDaemonCall "AddMatch" [.str rule]) = .error e →
        (add_match_string daemon rule).2 = .error (.daemon e)) ∧
    (∀ v : Value, daemon (busDaemonCall "RemoveMatch" [.str rule]) = .ok v →
        (remove_match_string daemon rule).2 = .ok ()) ∧
    (∀ e : DBusError, daemon (busDaemonCall "RemoveMatch" [.str rule]) = .error e →
        (remove_match_string daemon rule).2 = .error (.daemon e)) := by
  unfold add_match_string remove_match_string proxyCall
  exact ⟨fun v hval => by rw [hval]; rfl, fun e he => by rw [he]; rfl,
    fun v hval => by rw [hval]; rfl, fun e he => by rw [he]; rfl⟩

/-- C9 witness: a daemon answering `AddMatch` with a value yields
`.ok ()` — the reply value (here boolean `True`) is discarded. -/
theorem C9_blocking_match_ops_discard_reply_witness :
    (add_match_string daemonTrue "type=signal").2 = .ok () :=
  (C9_blocking_match_ops_discard_reply "type=signal" daemonTrue).1
    (.boolV true) rfl

/-- C10: a unique-form name that passes the general bus-name
validator is accepted by `start_service_by_name`, which queues the
`StartServiceByName` message (no validation error), while the same
name is rejected by `request_name` and `release_name`. -/
theorem C10_start_service_accepts_unique_form (name : String) (flags : Nat)
    (daemon : Daemon) (hu : isUniqueForm name = true)
    (hv : validate_bus_name name true = .ok ()) :
    (start_service_by_name daemon name flags).1 =
      [busDaemonCall "StartServiceByName" [.str name, .u32 (flags % 2 ^ 32)]] ∧
    (request_name daemon name flags).2 =
      .error (.validation (.uniqueFormForbidden name)) ∧
    (release_name daemon name).2 =
      .error (.validation (.uniqueFormForbidden name)) := by
  have hr := validate_rejects_unique name hu
  unfold start_service_by_name request_name release_name
  rw [hv, hr]
  exact ⟨rfl, rfl, rfl⟩

/-- C10 witness: `:1.42` passes the general validator and
`start_service_by_name` queues the activation message for it. -/
theorem C10_start_service_accepts_unique_form_witness :
    isUniqueForm ":1.42" = true ∧
    validate_bus_name ":1.42" true = .ok () ∧
    (start_service_by_name daemonStartOk ":1.42" 0).1 =
      [busDaemonCall "StartServiceByName" [.str ":1.42", .u32 (0 % 2 ^ 32)]] :=
  ⟨rfl, rfl,
    (C10_start_service_accepts_unique_form ":1.42" 0 daemonStartOk rfl rfl).1⟩

end DBusEgg
